import Mathlib

/-!
Shallow embedding of the RunPod serverless OpenVoice worker
(src/app/handler.py) and verification of the frozen claims about it.

The Python module is a job-processing pipeline around an external
voice-cloning TTS model.  Pure logic (string building, control flow,
error-as-value plumbing) is translated directly; effectful primitives
(filesystem, environment, HTTP, the external ML model, base64, md5,
clock and RNG) are modelled by an explicit file-system state `St` and a
record `Ext` of fixed external-behaviour oracles.  Every Python function
keeps its source name.  Exceptions are modelled with `Except`: a raise
inside a `try` body is an `Except.error`, and the enclosing
`except Exception` clause is the total wrapper that converts it into the
`(None, error)` / `{error: ...}` value the source returns.
-/

namespace OpenVoiceWorker

/-! ### Python string primitives used by the source -/

/-- Model of Python `str.lower()` restricted to per-character lowering
(the speaker keys it is applied to are ASCII). -/
def pyLower (s : String) : String :=
  String.mk (s.data.map Char.toLower)

/-- Model of Python `str.replace(UNDERSCORE, DASH)`: a single-character
replacement is a character map. -/
def pyReplaceUnderscore (s : String) : String :=
  String.mk (s.data.map (fun c => if c = '_' then '-' else c))

/-- Model of Python `str.startswith(p)`. -/
def pyStartsWith (s p : String) : Bool :=
  p.data.isPrefixOf s.data

/-- Model of Python `os.path.basename`: the characters after the last
slash (the paths it is applied to have no trailing slash). -/
def basename (s : String) : String :=
  String.mk (s.data.foldl (fun acc c => if c = '/' then [] else acc ++ [c]) [])

/-- Model of Python `os.path.join` for the relative second components the
source uses. -/
def os_path_join (a b : String) : String :=
  a ++ "/" ++ b

/-! ### File-system state -/

/-- A file-system entry: a regular file with its byte size, or a
directory. -/
inductive FsEntry where
  | file (size : Nat)
  | dir
  deriving DecidableEq, Repr

/-- Mutable process state: the file system (an association list from path
to entry, most recent write first) and the number of clock/RNG draws
consumed so far (the call counter for `generate_unique_filename`). -/
structure St where
  fs : List (String × FsEntry)
  rng : Nat
  deriving Repr

/-- Model of `os.path.exists`. -/
def pathExists (st : St) (p : String) : Bool :=
  (st.fs.lookup p).isSome

/-- Model of `os.path.getsize` (4096 is the size `stat` reports for a
directory; the call is only reached after an existence check). -/
def getsize (st : St) (p : String) : Nat :=
  match st.fs.lookup p with
  | some (FsEntry.file n) => n
  | some FsEntry.dir => 4096
  | none => 0

/-- Writing a file (creating or overwriting). -/
def fsWrite (st : St) (p : String) (n : Nat) : St :=
  { st with fs := (p, FsEntry.file n) :: st.fs }

/-- Model of `os.makedirs(d, exist_ok=True)` for a single component. -/
def mkdir (st : St) (d : String) : St :=
  if pathExists st d then st else { st with fs := (d, FsEntry.dir) :: st.fs }

/-- Model of `os.remove`. -/
def fsRemove (st : St) (p : String) : St :=
  { st with fs := st.fs.filter (fun q => !(q.1 == p)) }

/-! ### External behaviour oracles -/

/-- The external operations the pipeline performs through third-party
libraries; each can fail with an exception whose message the oracle
fixes. -/
inductive ExtOp where
  | converterInit
  | loadCkpt
  | getSe
  | ttsInit
  | torchLoad (key : String)
  | ttsToFile (key : String)
  | convert (key : String)
  | upload
  deriving DecidableEq, Repr

/-- Fixed external behaviour of one run: the process environment, the
clock and RNG (indexed by draw counter), md5, network transfers, the
zip archive contents, the external model operations, and base64
encoding.  These are constant for the duration of a run; only `St`
mutates. -/
structure Ext where
  env : List (String × String)
  tsOracle : Nat → String
  randOracle : Nat → String
  md5hex : String → String
  httpDownload : String → Except String Nat
  urlretrieve : String → Except String Nat
  zipContents : List (String × FsEntry)
  zipExtractErr : Option String
  extErr : ExtOp → Option String
  fileNotFoundMsg : String → String
  ttsOutSize : Nat
  convOutSize : Nat
  speakers : List String
  b64 : String → String
  cudaAvailable : Bool

/-- Model of Python `os.getenv(k)` (no default). -/
def os_getenv (ext : Ext) (k : String) : Option String :=
  ext.env.lookup k

/-- Model of Python `os.getenv(k, d)` with a string default. -/
def os_getenv_d (ext : Ext) (k d : String) : String :=
  match os_getenv ext k with
  | some v => v
  | none => d

/-- Python truthiness of an `os.getenv` result: a set, non-empty
string. -/
def envTruthy (ext : Ext) (k : String) : Bool :=
  match os_getenv ext k with
  | some v => !(v == "")
  | none => false

/-- The condition guarding the S3 upload branch of `generate_wav`
(line 235): all three storage variables are truthy. -/
def storageTruthy (ext : Ext) : Bool :=
  envTruthy ext "BUCKET_ENDPOINT_URL" &&
    envTruthy ext "BUCKET_ACCESS_KEY_ID" &&
      envTruthy ext "BUCKET_SECRET_ACCESS_KEY"

/-- Python interpolation of an `os.getenv` result into an f-string
(`None` prints as the string "None"). -/
def getenvStr (ext : Ext) (k : String) : String :=
  match os_getenv ext k with
  | some v => v
  | none => "None"

/-- The bucket name default of `generate_wav` (line 170). -/
def bucketName (ext : Ext) : String :=
  os_getenv_d ext "BUCKET_NAME" "OpenVoice"

/-- Instrumentation: the observable external actions a run performs,
used to state claims of the form "X is never invoked". -/
inductive Effect where
  | download (url : String)
  | extract
  | removeZip
  | generateWav
  | convert (path : String)
  | upload (path : String)
  deriving DecidableEq, Repr

/-! ### Embedded source functions -/

/-- Embedding of `check_directories(base_dir, dirs)` (handler.py lines
70-77): returns `(False, None)` at the first required subdirectory
missing under `base_dir`, else `(True, None)`; the `except` arm of the
source is unreachable because `os.path.exists` does not raise. -/
def check_directories (st : St) (base_dir : String) (dirs : List String) :
    Option Bool × Option String :=
  match dirs with
  | [] => (some true, none)
  | d :: rest =>
      if pathExists st (os_path_join base_dir d) then
        check_directories st base_dir rest
      else
        (some false, none)

/-- Embedding of `download_and_unzip(url, target_dir, zip_filename)`
(lines 80-96): download the archive, extract it into `target_dir`,
remove the archive; any exception is caught and returned as the error
component. -/
def download_and_unzip (ext : Ext) (st : St)
    (url target_dir zip_filename : String) :
    (Option Unit × Option String) × St × List Effect :=
  match ext.urlretrieve url with
  | Except.error e => ((none, some e), st, [Effect.download url])
  | Except.ok sz =>
      let st1 := fsWrite st zip_filename sz
      match ext.zipExtractErr with
      | some e => ((none, some e), st1, [Effect.download url, Effect.extract])
      | none =>
          let extracted :=
            ext.zipContents.map (fun pe => (os_path_join target_dir pe.1, pe.2))
          let st2 : St := { st1 with fs := extracted ++ st1.fs }
          let st3 := fsRemove st2 zip_filename
          ((some (), none), st3,
            [Effect.download url, Effect.extract, Effect.removeZip])

/-- Embedding of `sync_checkpoints(url, target_dir, zip_filename,
required_dirs)` (lines 142-162): cache-hit no-op when every required
subdirectory exists, otherwise download and extract. -/
def sync_checkpoints (ext : Ext) (st : St)
    (url target_dir zip_filename : String) (required_dirs : List String) :
    (Option Unit × Option String) × St × List Effect :=
  match check_directories st target_dir required_dirs with
  | (result, error) =>
      match error with
      | some e => ((none, some e), st, [])
      | none =>
          if result = some true then
            ((none, none), st, [])
          else
            match download_and_unzip ext st url target_dir zip_filename with
            | ((_, some e), st1, tr) => ((none, some e), st1, tr)
            | ((_, none), st1, tr) => ((none, none), st1, tr)

/-- Embedding of `generate_unique_filename(base_title, extension)`
(lines 99-110); in the source both parameters are optional with defaults
"outputs_v2/OpenVoice" and ".wav", which every call site uses and which
the embedding passes explicitly.  The timestamp (`datetime.now`, second resolution) and
the six random characters are the oracles at the current draw counter;
the md5 hex digest of the base title is truncated to six characters.
None of these operations can raise, so the `except` arm of the source is
unreachable and the error component is always `None`. -/
def generate_unique_filename (ext : Ext) (st : St)
    (base_title extension : String) :
    (Option String × Option String) × St :=
  let timestamp := ext.tsOracle st.rng
  let random_str := ext.randOracle st.rng
  let hash_str := String.mk ((ext.md5hex base_title).data.take 6)
  ((some (base_title ++ "_" ++ timestamp ++ "_" ++ random_str ++ "_" ++
      hash_str ++ extension), none),
    { st with rng := st.rng + 1 })

/-- The filename `generate_unique_filename` produces (with its default
arguments) at draw counter `c` — used to state theorems about the
synthesis loop. -/
def mkFileName (ext : Ext) (c : Nat) : String :=
  "outputs_v2/OpenVoice" ++ "_" ++ ext.tsOracle c ++ "_" ++
    ext.randOracle c ++ "_" ++
      String.mk ((ext.md5hex "outputs_v2/OpenVoice").data.take 6) ++ ".wav"

/-- Embedding of `download_file(url, local_filename)` (lines 113-122):
stream the URL to the local path; any exception (error status, transfer
failure) is caught and returned as the error component. -/
def download_file (ext : Ext) (st : St) (url local_filename : String) :
    (Option String × Option String) × St :=
  match ext.httpDownload url with
  | Except.error e => ((none, some e), st)
  | Except.ok sz => ((some local_filename, none), fsWrite st local_filename sz)

/-- Embedding of `upload_to_s3(local_file, bucket_name, object_name)`
(lines 126-139): on success the object URL built from the endpoint
variable, the bucket and the object name; exceptions are caught and
returned as the error component. -/
def upload_to_s3 (ext : Ext) (bucket_name object_name : String) :
    Option String × Option String :=
  match ext.extErr ExtOp.upload with
  | some e => (none, some e)
  | none =>
      (some (getenvStr ext "BUCKET_ENDPOINT_URL" ++ "/" ++ bucket_name ++ "/" ++
        object_name), none)

/-- The `ses` checkpoint path loaded for a (normalized) speaker key in
the synthesis loop (line 216). -/
def sesFile (key : String) : String :=
  "checkpoints_v2/base_speakers/ses/" ++
    pyReplaceUnderscore (pyLower key) ++ ".pth"

/-- How the per-speaker loop of `generate_wav` ends when no exception is
raised: falling through to the code after the loop with the final value
of the Python local `output_audio_path` (`none` when the loop body never
ran, i.e. the local is unbound), or an early `return None, error` from
inside the loop body. -/
inductive LoopExit where
  | done (output_audio_path : Option String) (st : St) (tr : List Effect)
  | earlyReturn (error : String) (st : St) (tr : List Effect)

/-- The per-speaker loop of `generate_wav` (lines 212-229), written as a
recursion over the speaker keys of the loaded TTS model.  Each iteration
normalizes the key, loads that speaker's embedding with `torch.load`
(which raises if the `ses` file is absent), synthesizes base audio to
`src_path`, generates a fresh output filename, and runs tone conversion
to that filename.  `acc` is the current value of the Python local
`output_audio_path`; `Except.error` is an uncaught exception.  The
`earlyReturn` and `TypeError` arms mirror the `if error: return None,
error` check of lines 219-220 and are dead in the model because
`generate_unique_filename` cannot fail. -/
def synthLoop (ext : Ext) (src_path : String) (keys : List String)
    (st : St) (acc : Option String) (tr : List Effect) :
    Except String LoopExit :=
  match keys with
  | [] => Except.ok (LoopExit.done acc st tr)
  | key :: rest =>
      let skey := pyReplaceUnderscore (pyLower key)
      let ses := "checkpoints_v2/base_speakers/ses/" ++ skey ++ ".pth"
      if pathExists st ses then
        match ext.extErr (ExtOp.torchLoad skey) with
        | some e => Except.error e
        | none =>
            match ext.extErr (ExtOp.ttsToFile key) with
            | some e => Except.error e
            | none =>
                let st1 := fsWrite st src_path ext.ttsOutSize
                match generate_unique_filename ext st1 "outputs_v2/OpenVoice"
                    ".wav" with
                | ((output_audio_path, error), st2) =>
                    match error with
                    | some e => Except.ok (LoopExit.earlyReturn e st2 tr)
                    | none =>
                        match output_audio_path with
                        | none => Except.error "TypeError: output path is None"
                        | some fname =>
                            match ext.extErr (ExtOp.convert key) with
                            | some e => Except.error e
                            | none =>
                                synthLoop ext src_path rest
                                  (fsWrite st2 fname ext.convOutSize)
                                  (some fname) (tr ++ [Effect.convert fname])
      else
        Except.error (ext.fileNotFoundMsg ses)

/-- The directory-creation preamble of `generate_wav` (lines 174-181):
seven `os.makedirs(..., exist_ok=True)` calls in source order. -/
def mkdirsAll (st : St) : St :=
  mkdir (mkdir (mkdir (mkdir (mkdir (mkdir (mkdir st
    "checkpoints_v2") "checkpoints_v2/base_speakers")
    "checkpoints_v2/base_speakers/ses") "checkpoints_v2/converter")
    "outputs_v2") "tmp") "processed"

/-- The result-publishing tail of `generate_wav` (lines 231-252): when
all three storage variables are truthy, upload the file and return the
object URL (or the upload error); otherwise read the file and return it
as a base64 data URI (the read cannot fail in the model because the loop
just wrote the file). -/
def generate_wav_publish (ext : Ext) (bucket_name outPath : String)
    (st : St) (tr : List Effect) :
    (Option String × Option String) × St × List Effect :=
  if storageTruthy ext then
    match upload_to_s3 ext bucket_name (basename outPath) with
    | (_, some e) => ((none, some e), st, tr ++ [Effect.upload outPath])
    | (uploaded_url, none) =>
        ((uploaded_url, none), st, tr ++ [Effect.upload outPath])
  else
    if pathExists st outPath then
      ((some ("data:audio/wav;base64," ++ ext.b64 outPath), none), st, tr)
    else
      ((none, some ("Failed to encode audio file: " ++
        ext.fileNotFoundMsg outPath)), st, tr)

/-- The `try` body of `generate_wav(language, text, reference_speaker,
speed)` (lines 166-252), in source order: resolve the bucket name,
create the working directories, construct the `ToneColorConverter` from
the checkpoint config (raises if the config file is absent) and load its
weights (raises if the weight file is absent), validate the reference
file, run the explicit required-checkpoint check of lines 198-204,
extract the reference embedding, load the TTS model, run the per-speaker
loop, then publish the last output: the S3 URL when all three storage
variables are truthy, otherwise the base64 data URI of the file.
`Except.error` is an exception propagating to the `except` clause;
`.ok` carries a `return` of the source. -/
def generate_wav_body (ext : Ext)
    (language text reference_speaker speed : String) (st : St) :
    Except String ((Option String × Option String) × St × List Effect) :=
  let bucket_name := bucketName ext
  let ckpt_config := "checkpoints_v2/converter" ++ "/config.json"
  let ckpt_weights := "checkpoints_v2/converter" ++ "/checkpoint.pth"
  let st := mkdirsAll st
  let src_path := "outputs_v2" ++ "/tmp.wav"
  let _device := if ext.cudaAvailable then "cuda:0" else "cpu"
  if pathExists st ckpt_config then
    match ext.extErr ExtOp.converterInit with
    | some e => Except.error e
    | none =>
        if pathExists st ckpt_weights then
          match ext.extErr ExtOp.loadCkpt with
          | some e => Except.error e
          | none =>
              if pathExists st reference_speaker then
                if pathExists st ckpt_config then
                  if pathExists st ckpt_weights then
                    match ext.extErr ExtOp.getSe with
                    | some e => Except.error e
                    | none =>
                        match ext.extErr ExtOp.ttsInit with
                        | some e => Except.error e
                        | none =>
                            match synthLoop ext src_path ext.speakers st
                                none [] with
                            | Except.error e => Except.error e
                            | Except.ok (LoopExit.earlyReturn e st tr) =>
                                Except.ok ((none, some e), st, tr)
                            | Except.ok (LoopExit.done output_audio_path st tr) =>
                                match output_audio_path with
                                | none =>
                                    Except.error
                                      "NameError: name output_audio_path is not defined"
                                | some outPath =>
                                    Except.ok (generate_wav_publish ext
                                      bucket_name outPath st tr)
                  else
                    Except.ok ((none,
                      some ("Required checkpoint file not found: " ++
                        ckpt_weights)), st, [])
                else
                  Except.ok ((none,
                    some ("Required checkpoint file not found: " ++
                      ckpt_config)), st, [])
              else
                Except.ok ((none,
                  some ("Reference speaker file not found: " ++
                    reference_speaker)), st, [])
        else
          Except.error (ext.fileNotFoundMsg ckpt_weights)
  else
    Except.error (ext.fileNotFoundMsg ckpt_config)

/-- Embedding of `generate_wav` (lines 166-255): the `try` body wrapped
by the `except Exception` clause, which converts any exception into a
`(None, error)` return. -/
def generate_wav (ext : Ext)
    (language text reference_speaker speed : String) (st : St) :
    (Option String × Option String) × St × List Effect :=
  match generate_wav_body ext language text reference_speaker speed st with
  | Except.ok r => r
  | Except.error e => ((none, some e), st, [])

/-! ### The job handler -/

/-- The fields of the `input` dictionary of a job; `none` means the key
is absent (so `dict.get` falls back to its default), `some STR` is a
present string value (in particular `some ""` is present-but-empty). -/
structure JobInput where
  text : Option String := none
  language : Option String := none
  voice_url : Option String := none
  speed : Option String := none

/-- A job as delivered by the serverless runtime; `input = none` models
a dictionary without an `input` key, on which the subscript of line 260
raises `KeyError`. -/
structure Job where
  input : Option JobInput

/-- The handler response: exactly one of the two dictionary shapes the
source builds. -/
inductive Resp where
  | ok (output_audio_path : Option String)
  | err (msg : String)
  deriving DecidableEq, Repr

/-- Model of Python `dict.get(k, default)` on an optional field. -/
def pyGet (v : Option String) (d : Option String) : Option String :=
  match v with
  | some x => some x
  | none => d

/-- Python truthiness of an optional string: present and non-empty. -/
def pyTruthy : Option String → Bool
  | none => false
  | some s => !(s == "")

/-- The tail of `handler` after the reference has been resolved (lines
324-342), reached identically from both resolution branches: re-check
that the reference exists, enforce the 1000-byte minimum size, call
`generate_wav` and map its outcome to the response shape. -/
def handlerAfterResolve (ext : Ext) (st : St)
    (language text reference_speaker speed : String) (tr : List Effect) :
    Resp × St × List Effect :=
  if pathExists st reference_speaker then
    let file_size := getsize st reference_speaker
    if file_size < 1000 then
      (Resp.err ("Voice file too small: " ++ toString file_size ++ " bytes"),
        st, tr)
    else
      match generate_wav ext language text reference_speaker speed st with
      | ((output_audio_path, error), st1, tr1) =>
          match error with
          | some e =>
              (Resp.err ("Failed to generate audio: " ++ e), st1,
                tr ++ Effect.generateWav :: tr1)
          | none =>
              (Resp.ok output_audio_path, st1, tr ++ Effect.generateWav :: tr1)
  else
    (Resp.err "Voice file does not exist", st, tr)

/-- Embedding of `handler(job)` (lines 258-345), in source order:
extract the input (KeyError caught by the outer `except` when absent),
create `tmp`, resolve `text` / `language` / `voice_url` / `speed`
against their environment defaults, resolve the reference (download for
HTTP(S) URLs, direct use for local paths), re-check existence, enforce
the 1000-byte minimum size, and call `generate_wav`, mapping every
failure to an `error` response. -/
def handler (ext : Ext) (job : Job) (st : St) : Resp × St × List Effect :=
  match job.input with
  | none => (Resp.err "Unexpected error: 'input'", st, [])
  | some job_input =>
      let st := mkdir st "tmp"
      let text := pyGet job_input.text (os_getenv ext "DEFAULT_TEXT")
      if pyTruthy text then
        let _language :=
          match job_input.language with
          | some v => v
          | none => os_getenv_d ext "DEFAULT_LANGUAGE" "EN"
        let voice_url := pyGet job_input.voice_url
          (os_getenv ext "DEFAULT_VOICE_URL")
        if pyTruthy voice_url then
          let voice := match voice_url with | some v => v | none => ""
          let _speed :=
            match job_input.speed with
            | some v => v
            | none => os_getenv_d ext "DEFAULT_SPEED" "1.0"
          if pyStartsWith voice "http://" || pyStartsWith voice "https://" then
            match download_file ext st voice "tmp/audio.wav" with
            | ((_, some e), st1) =>
                (Resp.err ("Failed to download voice file: " ++ e), st1, [])
            | ((ref, none), st1) =>
                let reference_speaker :=
                  match ref with | some r => r | none => ""
                handlerAfterResolve ext st1 (_language) (text.getD "")
                  reference_speaker (_speed) [Effect.download voice]
          else
            if pathExists st voice then
              handlerAfterResolve ext st (_language) (text.getD "") voice
                (_speed) []
            else
              (Resp.err ("Local voice file not found: " ++ voice), st, [])
        else
          (Resp.err "Voice URL is required", st, [])
      else
        (Resp.err "Text is required", st, [])

/-! ### Concrete worlds for witnesses and counterexamples -/

/-- A fully healthy external behaviour: all three storage variables set
and non-empty, every external operation succeeding, two base speakers,
and concrete clock/RNG/md5/base64 oracles. -/
def extOk : Ext :=
  { env := [("BUCKET_ENDPOINT_URL", "https://s3.example"),
      ("BUCKET_ACCESS_KEY_ID", "key"), ("BUCKET_SECRET_ACCESS_KEY", "secret")]
    tsOracle := fun _ => "20240101_000000"
    randOracle := fun n => if n == 0 then "aaaaaa" else "bbbbbb"
    md5hex := fun _ => "0123456789abcdef"
    httpDownload := fun _ => Except.ok 5000
    urlretrieve := fun _ => Except.ok 100
    zipContents := []
    zipExtractErr := none
    extErr := fun _ => none
    fileNotFoundMsg := fun p => "No such file or directory: " ++ p
    ttsOutSize := 111
    convOutSize := 222
    speakers := ["EN_US", "EN_BR"]
    b64 := fun _ => "QUJD"
    cudaAvailable := false }

/-- A file system with the converter checkpoints, the two base-speaker
embeddings matching `extOk`, and a 2000-byte reference recording. -/
def stOk : St :=
  { fs := [("checkpoints_v2/converter/config.json", FsEntry.file 10),
      ("checkpoints_v2/converter/checkpoint.pth", FsEntry.file 10),
      ("checkpoints_v2/base_speakers/ses/en-us.pth", FsEntry.file 10),
      ("checkpoints_v2/base_speakers/ses/en-br.pth", FsEntry.file 10),
      ("resources/1.wav", FsEntry.file 2000)]
    rng := 0 }

/-! ### Basic lemmas about the state model -/

theorem string_data_inj {s t : String} (h : s.data = t.data) : s = t := by
  cases s; cases t; exact congrArg String.mk h

theorem lookup_fsWrite_self (st : St) (p : String) (n : Nat) :
    (fsWrite st p n).fs.lookup p = some (FsEntry.file n) := by
  simp [fsWrite, List.lookup]

theorem pathExists_fsWrite_of {st : St} {p : String} (q : String) (n : Nat)
    (h : pathExists st p = true) : pathExists (fsWrite st q n) p = true := by
  unfold pathExists fsWrite
  simp only [List.lookup]
  cases hq : p == q with
  | false => exact h
  | true => rfl

theorem pathExists_mkdir_of {st : St} {p : String} (d : String)
    (h : pathExists st p = true) : pathExists (mkdir st d) p = true := by
  unfold mkdir
  split
  · exact h
  · unfold pathExists
    simp only [List.lookup]
    cases hq : p == d with
    | false => exact h
    | true => rfl

theorem pathExists_mkdir_ne {st : St} {p d : String} (h : p ≠ d) :
    pathExists (mkdir st d) p = pathExists st p := by
  unfold mkdir
  split
  · rfl
  · unfold pathExists
    simp only [List.lookup]
    cases hq : p == d with
    | false => rfl
    | true => exact absurd (beq_iff_eq.mp hq) h

theorem lookup_mkdir_of {st : St} {p : String} {e : FsEntry} (d : String)
    (h : st.fs.lookup p = some e) : (mkdir st d).fs.lookup p = some e := by
  unfold mkdir
  split
  · exact h
  · rename_i hne
    simp only [List.lookup]
    cases hq : p == d with
    | false => exact h
    | true =>
        refine absurd ?_ hne
        have hpd : p = d := beq_iff_eq.mp hq
        unfold pathExists
        rw [← hpd, h]
        rfl

theorem mkdir_rng (st : St) (d : String) : (mkdir st d).rng = st.rng := by
  unfold mkdir; split <;> rfl

theorem mkdir_fs_of_exists {st : St} {d : String}
    (h : pathExists st d = true) : mkdir st d = st := by
  unfold mkdir; simp [h]

/-! ### Claim C1 -/

/-- Claim C1: for every job request the handler returns exactly one
result value, either an `output_audio_path` response or an `error`
response, and never raises past its boundary.  The embedding realizes
the no-raise contract structurally: `handler` is a total function whose
only exception source (the `input` subscript) is converted by the outer
`except` clause into an `error` value, and whose result type `Resp` has
exactly the two dictionary shapes as constructors; this theorem records
that every run lands in one of them. -/
theorem claim_C1_single_result_no_raise (ext : Ext) (job : Job) (st : St) :
    (∃ p, (handler ext job st).1 = Resp.ok p) ∨
      (∃ m, (handler ext job st).1 = Resp.err m) := by
  cases h : (handler ext job st).1 with
  | ok p => exact Or.inl ⟨p, rfl⟩
  | err m => exact Or.inr ⟨m, rfl⟩

/-! ### Claim C3 -/

/-- Claim C3: whenever `text` is absent with no `DEFAULT_TEXT`, or
`voice_url` is absent with no `DEFAULT_VOICE_URL`, the handler returns
an error response and the synthesis pipeline `generate_wav` is never
invoked. -/
theorem claim_C3_missing_required_field (ext : Ext) (ji : JobInput) (st : St)
    (h : (ji.text = none ∧ os_getenv ext "DEFAULT_TEXT" = none) ∨
      (ji.voice_url = none ∧ os_getenv ext "DEFAULT_VOICE_URL" = none)) :
    (∃ m, (handler ext { input := some ji } st).1 = Resp.err m) ∧
      Effect.generateWav ∉ (handler ext { input := some ji } st).2.2 := by
  rcases h with ⟨h1, h2⟩ | ⟨h1, h2⟩
  · simp [handler, pyGet, h1, h2, pyTruthy]
  · simp only [handler, pyGet, h1, h2, pyTruthy]
    split <;> simp

/-- Witness for claim C3 at a concrete job and environment. -/
theorem claim_C3_witness :
    (∃ m, (handler
      { env := [], tsOracle := fun _ => "", randOracle := fun _ => "",
        md5hex := fun _ => "", httpDownload := fun _ => Except.error "",
        urlretrieve := fun _ => Except.error "", zipContents := [],
        zipExtractErr := none, extErr := fun _ => none,
        fileNotFoundMsg := fun _ => "", ttsOutSize := 0, convOutSize := 0,
        speakers := [], b64 := fun _ => "", cudaAvailable := false }
      { input := some { } } { fs := [], rng := 0 }).1 = Resp.err m) ∧
      Effect.generateWav ∉ (handler
      { env := [], tsOracle := fun _ => "", randOracle := fun _ => "",
        md5hex := fun _ => "", httpDownload := fun _ => Except.error "",
        urlretrieve := fun _ => Except.error "", zipContents := [],
        zipExtractErr := none, extErr := fun _ => none,
        fileNotFoundMsg := fun _ => "", ttsOutSize := 0, convOutSize := 0,
        speakers := [], b64 := fun _ => "", cudaAvailable := false }
      { input := some { } } { fs := [], rng := 0 }).2.2 :=
  claim_C3_missing_required_field _ _ _ (Or.inl ⟨rfl, rfl⟩)

/-! ### Claim C10 -/

/-- Claim C10: an explicitly present empty-string `text` or `voice_url`
yields the corresponding "required" error without consulting the
environment default — the theorem quantifies over every environment, in
particular ones where `DEFAULT_TEXT` / `DEFAULT_VOICE_URL` are set. -/
theorem claim_C10_empty_value_ignores_default (ext : Ext) (ji : JobInput)
    (st : St) :
    (ji.text = some "" →
      (handler ext { input := some ji } st).1 = Resp.err "Text is required") ∧
    (∀ t, ji.text = some t → t ≠ "" → ji.voice_url = some "" →
      (handler ext { input := some ji } st).1 =
        Resp.err "Voice URL is required") := by
  constructor
  · intro h
    simp [handler, pyGet, h, pyTruthy]
  · intro t ht ht0 hv
    simp [handler, pyGet, ht, hv, pyTruthy, ht0]

/-- Witness for claim C10: with both defaults set in the environment, an
empty `text` value still produces the "Text is required" error. -/
theorem claim_C10_witness :
    (handler
      { env := [("DEFAULT_TEXT", "fallback"), ("DEFAULT_VOICE_URL", "x.wav")],
        tsOracle := fun _ => "", randOracle := fun _ => "",
        md5hex := fun _ => "", httpDownload := fun _ => Except.error "",
        urlretrieve := fun _ => Except.error "", zipContents := [],
        zipExtractErr := none, extErr := fun _ => none,
        fileNotFoundMsg := fun _ => "", ttsOutSize := 0, convOutSize := 0,
        speakers := [], b64 := fun _ => "", cudaAvailable := false }
      { input := some { text := some "" } } { fs := [], rng := 0 }).1 =
      Resp.err "Text is required" :=
  (claim_C10_empty_value_ignores_default _ _ _).1 rfl

/-! ### Claim C8 -/

/-- When every required subdirectory exists, `check_directories` reports
a cache hit. -/
theorem check_directories_all_present (st : St) (base_dir : String)
    (dirs : List String)
    (h : ∀ d ∈ dirs, pathExists st (os_path_join base_dir d) = true) :
    check_directories st base_dir dirs = (some true, none) := by
  induction dirs with
  | nil => rfl
  | cons d rest ih =>
      have hd := h d (List.mem_cons_self d rest)
      simp only [check_directories, hd, if_true]
      exact ih (fun d2 hm => h d2 (List.mem_cons_of_mem d hm))

/-- Claim C8: the checkpoint provisioner is idempotent — when every
required subdirectory already exists under the target directory, a call
to `sync_checkpoints` is a cache-hit no-op (no download, no extraction,
state unchanged, success returned), and so is a second call with the
same arguments. -/
theorem claim_C8_sync_checkpoints_idempotent (ext : Ext) (st : St)
    (url target_dir zip_filename : String) (required_dirs : List String)
    (h : ∀ d ∈ required_dirs,
      pathExists st (os_path_join target_dir d) = true) :
    sync_checkpoints ext st url target_dir zip_filename required_dirs =
      ((none, none), st, []) ∧
    sync_checkpoints ext
        (sync_checkpoints ext st url target_dir zip_filename
          required_dirs).2.1
        url target_dir zip_filename required_dirs =
      ((none, none), st, []) := by
  have hc := check_directories_all_present st target_dir required_dirs h
  have h1 : sync_checkpoints ext st url target_dir zip_filename
      required_dirs = ((none, none), st, []) := by
    simp [sync_checkpoints, hc]
  exact ⟨h1, by rw [h1]; exact h1⟩

/-- Witness for claim C8 at the concrete startup configuration of the
source's main block. -/
theorem claim_C8_witness :
    sync_checkpoints
      { env := [], tsOracle := fun _ => "", randOracle := fun _ => "",
        md5hex := fun _ => "", httpDownload := fun _ => Except.error "",
        urlretrieve := fun _ => Except.error "boom", zipContents := [],
        zipExtractErr := none, extErr := fun _ => none,
        fileNotFoundMsg := fun _ => "", ttsOutSize := 0, convOutSize := 0,
        speakers := [], b64 := fun _ => "", cudaAvailable := false }
      { fs := [("/app/checkpoints_v2", FsEntry.dir),
          ("/app/checkpoints_v2/base_speakers", FsEntry.dir),
          ("/app/checkpoints_v2/base_speakers/ses", FsEntry.dir),
          ("/app/checkpoints_v2/converter", FsEntry.dir)], rng := 0 }
      "https://myshell-public-repo-host.s3.amazonaws.com/openvoice/checkpoints_v2_0417.zip"
      "/app" "/app/checkpoints_v2_0417.zip"
      ["checkpoints_v2", "checkpoints_v2/base_speakers",
        "checkpoints_v2/base_speakers/ses", "checkpoints_v2/converter"] =
      ((none, none),
        { fs := [("/app/checkpoints_v2", FsEntry.dir),
            ("/app/checkpoints_v2/base_speakers", FsEntry.dir),
            ("/app/checkpoints_v2/base_speakers/ses", FsEntry.dir),
            ("/app/checkpoints_v2/converter", FsEntry.dir)], rng := 0 },
        []) :=
  (claim_C8_sync_checkpoints_idempotent _ _ _ _ _ _ (by decide)).1

/-! ### Claim C6 -/

/-- The handler tail rejects a resolved reference file smaller than 1000
bytes with the size-mentioning error, leaving state and trace alone. -/
theorem handlerAfterResolve_small (ext : Ext) (st : St)
    (language text ref speed : String) (tr : List Effect) (sz : Nat)
    (hlk : st.fs.lookup ref = some (FsEntry.file sz)) (hsz : sz < 1000) :
    handlerAfterResolve ext st language text ref speed tr =
      (Resp.err ("Voice file too small: " ++ toString sz ++ " bytes"),
        st, tr) := by
  unfold handlerAfterResolve
  have hex : pathExists st ref = true := by simp [pathExists, hlk]
  rw [if_pos hex]
  have hg : getsize st ref = sz := by simp [getsize, hlk]
  rw [hg, if_pos hsz]

/-- Claim C6: every resolved reference file smaller than 1000 bytes —
whether downloaded from a URL or taken from a local path — makes the
handler return the size-mentioning error without invoking
`generate_wav`.  The model has no notion of file content, so content is
vacuously irrelevant. -/
theorem claim_C6_small_reference_rejected (ext : Ext) (ji : JobInput)
    (st : St) (t u : String) (sz : Nat)
    (ht : ji.text = some t) (ht0 : t ≠ "")
    (hu : ji.voice_url = some u) (hu0 : u ≠ "")
    (hsz : sz < 1000)
    (hres : ((pyStartsWith u "http://" || pyStartsWith u "https://") = true ∧
        ext.httpDownload u = Except.ok sz) ∨
      ((pyStartsWith u "http://" || pyStartsWith u "https://") = false ∧
        st.fs.lookup u = some (FsEntry.file sz))) :
    (handler ext { input := some ji } st).1 =
      Resp.err ("Voice file too small: " ++ toString sz ++ " bytes") ∧
      Effect.generateWav ∉ (handler ext { input := some ji } st).2.2 := by
  rcases hres with ⟨hs, hdl⟩ | ⟨hs, hlk⟩
  · have hw : (fsWrite (mkdir st "tmp") "tmp/audio.wav" sz).fs.lookup
        "tmp/audio.wav" = some (FsEntry.file sz) :=
      lookup_fsWrite_self _ _ _
    simp [handler, pyGet, ht, hu, pyTruthy, ht0, hu0, hs, download_file, hdl,
      handlerAfterResolve_small ext _ _ _ _ _ _ sz hw hsz]
  · have hlk2 : (mkdir st "tmp").fs.lookup u = some (FsEntry.file sz) :=
      lookup_mkdir_of _ hlk
    have hex : pathExists (mkdir st "tmp") u = true := by
      simp [pathExists, hlk2]
    simp [handler, pyGet, ht, hu, pyTruthy, ht0, hu0, hs, hex,
      handlerAfterResolve_small ext _ _ _ _ _ _ sz hlk2 hsz]

/-- Witness for claim C6: a 500-byte local reference file is rejected
with the size in the message. -/
theorem claim_C6_witness :
    (handler
      { env := [], tsOracle := fun _ => "", randOracle := fun _ => "",
        md5hex := fun _ => "", httpDownload := fun _ => Except.error "",
        urlretrieve := fun _ => Except.error "", zipContents := [],
        zipExtractErr := none, extErr := fun _ => none,
        fileNotFoundMsg := fun _ => "", ttsOutSize := 0, convOutSize := 0,
        speakers := [], b64 := fun _ => "", cudaAvailable := false }
      { input := some { text := some "hi", voice_url := some "small.wav" } }
      { fs := [("small.wav", FsEntry.file 500)], rng := 0 }).1 =
      Resp.err ("Voice file too small: " ++ toString 500 ++ " bytes") ∧
      Effect.generateWav ∉ (handler
      { env := [], tsOracle := fun _ => "", randOracle := fun _ => "",
        md5hex := fun _ => "", httpDownload := fun _ => Except.error "",
        urlretrieve := fun _ => Except.error "", zipContents := [],
        zipExtractErr := none, extErr := fun _ => none,
        fileNotFoundMsg := fun _ => "", ttsOutSize := 0, convOutSize := 0,
        speakers := [], b64 := fun _ => "", cudaAvailable := false }
      { input := some { text := some "hi", voice_url := some "small.wav" } }
      { fs := [("small.wav", FsEntry.file 500)], rng := 0 }).2.2 :=
  claim_C6_small_reference_rejected _ _ _ "hi" "small.wav" 500 rfl
    (by decide) rfl (by decide) (by decide) (Or.inr ⟨by decide, rfl⟩)

/-! ### Claim C7 -/

/-- Counterexample to claim C7 as stated: the path "tmp" does not exist,
yet because line 266 of the source runs `os.makedirs` on exactly that
name before the local-path existence check of line 320, the handler does
not return the "Local voice file not found" error — it proceeds into the
synthesis pipeline. -/
theorem claim_C7_counterexample :
    pathExists { fs := [], rng := 0 } "tmp" = false ∧
    Effect.generateWav ∈ (handler extOk
      { input := some { text := some "hi", voice_url := some "tmp" } }
      { fs := [], rng := 0 }).2.2 ∧
    (handler extOk
      { input := some { text := some "hi", voice_url := some "tmp" } }
      { fs := [], rng := 0 }).1 ≠
      Resp.err "Local voice file not found: tmp" := by
  refine ⟨rfl, ?_, ?_⟩ <;> decide

/-- Claim C7 as amended: for a `voice_url` that is an unreachable
HTTP(S) URL the handler returns the download error and never calls
`generate_wav`; for a nonexistent local path the handler returns
"Local voice file not found: PATH" and never calls `generate_wav`,
except for the literal path "tmp", which the handler itself creates
before the check (the counterexample above). -/
theorem claim_C7_unresolvable_reference (ext : Ext) (ji : JobInput)
    (st : St) (t u : String)
    (ht : ji.text = some t) (ht0 : t ≠ "")
    (hu : ji.voice_url = some u) (hu0 : u ≠ "") :
    (∀ e, (pyStartsWith u "http://" || pyStartsWith u "https://") = true →
      ext.httpDownload u = Except.error e →
      (handler ext { input := some ji } st).1 =
        Resp.err ("Failed to download voice file: " ++ e) ∧
        Effect.generateWav ∉ (handler ext { input := some ji } st).2.2) ∧
    ((pyStartsWith u "http://" || pyStartsWith u "https://") = false →
      u ≠ "tmp" → pathExists st u = false →
      (handler ext { input := some ji } st).1 =
        Resp.err ("Local voice file not found: " ++ u) ∧
        Effect.generateWav ∉ (handler ext { input := some ji } st).2.2) := by
  constructor
  · intro e hs hdl
    simp [handler, pyGet, ht, hu, pyTruthy, ht0, hu0, hs, download_file, hdl]
  · intro hs htmp hex
    have hex2 : pathExists (mkdir st "tmp") u = false := by
      rw [pathExists_mkdir_ne htmp]; exact hex
    simp [handler, pyGet, ht, hu, pyTruthy, ht0, hu0, hs, hex2]

/-- Witness for the amended claim C7: the end-to-end scenario of the
specification, a job naming a missing local file. -/
theorem claim_C7_witness :
    (handler extOk
      { input :=
          some { text := some "hi", voice_url := some "/missing/file.wav" } }
      stOk).1 =
      Resp.err ("Local voice file not found: " ++ "/missing/file.wav") ∧
      Effect.generateWav ∉ (handler extOk
      { input :=
          some { text := some "hi", voice_url := some "/missing/file.wav" } }
      stOk).2.2 :=
  (claim_C7_unresolvable_reference extOk _ stOk "hi" "/missing/file.wav"
    rfl (by decide) rfl (by decide)).2 (by decide) (by decide) (by decide)

/-! ### Claim C4 -/

/-- Claim C4 names a code bug: the explicit required-checkpoint check of
lines 198-204 sits after the `ToneColorConverter` construction
(line 190) and weight load (line 191) that consume exactly those files,
so when either checkpoint file is absent the load raises first and the
caller receives the generic crash-derived message; the specific
"Required checkpoint file not found" message of the check is
unreachable.  This theorem evaluates the pipeline at the two failing
inputs (config absent, then weights absent) and records that the error
is the crash message, not the specific one. -/
theorem claim_C4_check_after_load_yields_generic_error :
    (generate_wav extOk "EN" "hello" "resources/1.wav" "1.0"
      { fs := [("checkpoints_v2/converter/checkpoint.pth", FsEntry.file 10),
          ("resources/1.wav", FsEntry.file 2000)], rng := 0 }).1 =
      (none, some
        "No such file or directory: checkpoints_v2/converter/config.json") ∧
    (generate_wav extOk "EN" "hello" "resources/1.wav" "1.0"
      { fs := [("checkpoints_v2/converter/checkpoint.pth", FsEntry.file 10),
          ("resources/1.wav", FsEntry.file 2000)], rng := 0 }).1.2 ≠
      some ("Required checkpoint file not found: " ++
        "checkpoints_v2/converter/config.json") ∧
    (generate_wav extOk "EN" "hello" "resources/1.wav" "1.0"
      { fs := [("checkpoints_v2/converter/config.json", FsEntry.file 10),
          ("resources/1.wav", FsEntry.file 2000)], rng := 0 }).1 =
      (none, some
        "No such file or directory: checkpoints_v2/converter/checkpoint.pth") ∧
    (generate_wav extOk "EN" "hello" "resources/1.wav" "1.0"
      { fs := [("checkpoints_v2/converter/config.json", FsEntry.file 10),
          ("resources/1.wav", FsEntry.file 2000)], rng := 0 }).1.2 ≠
      some ("Required checkpoint file not found: " ++
        "checkpoints_v2/converter/checkpoint.pth") := by
  refine ⟨?_, ?_, ?_, ?_⟩ <;> decide

/-! ### Claim C2 -/

theorem isPrefixOf_append_self (l m : List Char) :
    l.isPrefixOf (l ++ m) = true := by
  induction l with
  | nil => simp
  | cons a t ih => simpa [List.isPrefixOf_cons₂] using ih

theorem pyStartsWith_append (pre rest : String) :
    pyStartsWith (pre ++ rest) pre = true := by
  unfold pyStartsWith
  rw [String.data_append]
  exact isPrefixOf_append_self _ _

/-- Counterexample to claim C2 as stated: all three storage environment
variables are set — `BUCKET_ENDPOINT_URL` to the empty string — and a
run succeeds, yet the returned value is the base64 data URI, not the S3
object URL, because line 235 of the source tests Python truthiness, and
a set-but-empty variable is falsy. -/
theorem claim_C2_counterexample :
    (os_getenv { extOk with env := [("BUCKET_ENDPOINT_URL", ""),
        ("BUCKET_ACCESS_KEY_ID", "key"), ("BUCKET_SECRET_ACCESS_KEY", "secret")]
      } "BUCKET_ENDPOINT_URL").isSome = true ∧
    (os_getenv { extOk with env := [("BUCKET_ENDPOINT_URL", ""),
        ("BUCKET_ACCESS_KEY_ID", "key"), ("BUCKET_SECRET_ACCESS_KEY", "secret")]
      } "BUCKET_ACCESS_KEY_ID").isSome = true ∧
    (os_getenv { extOk with env := [("BUCKET_ENDPOINT_URL", ""),
        ("BUCKET_ACCESS_KEY_ID", "key"), ("BUCKET_SECRET_ACCESS_KEY", "secret")]
      } "BUCKET_SECRET_ACCESS_KEY").isSome = true ∧
    (generate_wav { extOk with env := [("BUCKET_ENDPOINT_URL", ""),
        ("BUCKET_ACCESS_KEY_ID", "key"), ("BUCKET_SECRET_ACCESS_KEY", "secret")]
      } "EN" "hello" "resources/1.wav" "1.0" stOk).1 =
      (some ("data:audio/wav;base64," ++ "QUJD"), none) := by
  refine ⟨rfl, rfl, rfl, ?_⟩
  decide


/-- A successful `generate_wav_publish` result is the S3 object URL in
the truthy-credentials branch and a wav data URI otherwise. -/
theorem generate_wav_publish_success (ext : Ext) (b o : String) (st : St)
    (tr : List Effect) (p : String) (st1 : St) (tr1 : List Effect)
    (h : generate_wav_publish ext b o st tr = ((some p, none), st1, tr1)) :
    (storageTruthy ext = true →
      ∃ obj, p = getenvStr ext "BUCKET_ENDPOINT_URL" ++ "/" ++ b ++ "/" ++
        obj) ∧
    (storageTruthy ext = false →
      pyStartsWith p "data:audio/wav;base64," = true) := by
  unfold generate_wav_publish at h
  split at h
  · rename_i hcond
    split at h
    · simp at h
    · rename_i uploaded_url heq
      unfold upload_to_s3 at heq
      split at heq
      · simp at heq
      · have hup : uploaded_url = some (getenvStr ext "BUCKET_ENDPOINT_URL" ++
            "/" ++ b ++ "/" ++ basename o) := by
          have := congrArg Prod.fst heq
          simpa using this.symm
        rw [hup] at h
        have hp : p = getenvStr ext "BUCKET_ENDPOINT_URL" ++ "/" ++ b ++ "/" ++
            basename o := by
          have := congrArg (fun x => x.1.1) h
          simpa using this.symm
        exact ⟨fun _ => ⟨basename o, hp⟩, fun hfalse => absurd hcond
          (by simp [hfalse])⟩
  · rename_i hcond
    split at h
    · have hp : p = "data:audio/wav;base64," ++ ext.b64 o := by
        have := congrArg (fun x => x.1.1) h
        simpa using this.symm
      refine ⟨fun htrue => absurd htrue hcond, fun _ => ?_⟩
      rw [hp]
      exact pyStartsWith_append _ _
    · simp at h

/-- Every successful return of the `generate_wav` body comes out of its
publishing tail with the resolved bucket name. -/
theorem generate_wav_body_success (ext : Ext)
    (language text reference_speaker speed : String) (st : St)
    (res : (Option String × Option String) × St × List Effect) (p : String)
    (h : generate_wav_body ext language text reference_speaker speed st =
      Except.ok res)
    (hp : res.1 = (some p, none)) :
    ∃ o st2 tr2, generate_wav_publish ext (bucketName ext) o st2 tr2 = res := by
  simp only [generate_wav_body] at h
  generalize mkdirsAll st = stM at h
  repeat' split at h
  all_goals cases h
  all_goals first
    | exact ⟨_, _, _, rfl⟩
    | simp at hp

theorem claim_C2_output_shape (ext : Ext) (st : St)
    (language text reference_speaker speed p : String)
    (hcfg : pathExists st "checkpoints_v2/converter/config.json" = true)
    (hck : pathExists st "checkpoints_v2/converter/checkpoint.pth" = true)
    (href : pathExists st reference_speaker = true)
    (hsize : 1000 ≤ getsize st reference_speaker)
    (htext : text ≠ "")
    (hrun : (generate_wav ext language text reference_speaker speed st).1 =
      (some p, none)) :
    (storageTruthy ext = true →
      ∃ object_name, p = getenvStr ext "BUCKET_ENDPOINT_URL" ++ "/" ++
        bucketName ext ++ "/" ++ object_name) ∧
    (storageTruthy ext = false →
      pyStartsWith p "data:audio/wav;base64," = true) := by
  unfold generate_wav at hrun
  cases hbody : generate_wav_body ext language text reference_speaker speed st
    with
  | error e =>
      rw [hbody] at hrun
      replace hrun : ((none : Option String), (some e : Option String)) =
        (some p, none) := hrun
      simp at hrun
  | ok res =>
      rw [hbody] at hrun
      replace hrun : res.1 = (some p, none) := hrun
      obtain ⟨o, st2, tr2, hpub⟩ :=
        generate_wav_body_success ext language text reference_speaker speed st
          res p hbody hrun
      exact generate_wav_publish_success ext (bucketName ext) o st2 tr2 p
        res.2.1 res.2.2 (hpub.trans (by rw [← hrun]))

/-- Witness for the amended claim C2: a fully successful run with all
three storage variables set non-empty yields the S3 object URL. -/
theorem claim_C2_witness :
    ∃ object_name,
      "https://s3.example/OpenVoice/OpenVoice_20240101_000000_bbbbbb_012345.wav"
        = getenvStr extOk "BUCKET_ENDPOINT_URL" ++ "/" ++ bucketName extOk ++
          "/" ++ object_name :=
  (claim_C2_output_shape extOk stOk "EN" "hello" "resources/1.wav" "1.0"
    "https://s3.example/OpenVoice/OpenVoice_20240101_000000_bbbbbb_012345.wav"
    (by decide) (by decide) (by decide) (by decide) (by decide)
    (by decide)).1 (by decide)

/-! ### Claim C5 -/

theorem generate_unique_filename_eq (ext : Ext) (st : St) :
    generate_unique_filename ext st "outputs_v2/OpenVoice" ".wav" =
      ((some (mkFileName ext st.rng), none), { st with rng := st.rng + 1 }) :=
  rfl

theorem synthLoop_done (ext : Ext) (src_path : String) (keys : List String) :
    ∀ (st : St) (acc : Option String) (tr : List Effect),
      (∀ k ∈ keys, pathExists st (sesFile k) = true) →
      (∀ op, ext.extErr op = none) →
      ∃ fs1,
        synthLoop ext src_path keys st acc tr =
          Except.ok (LoopExit.done
            (if keys.isEmpty then acc
              else some (mkFileName ext (st.rng + keys.length - 1)))
            { fs := fs1, rng := st.rng + keys.length }
            (tr ++ (List.range keys.length).map
              (fun i => Effect.convert (mkFileName ext (st.rng + i))))) ∧
        ∀ p, pathExists st p = true →
          pathExists { fs := fs1, rng := st.rng + keys.length } p = true := by
  induction keys with
  | nil =>
      intro st acc tr hses herr
      refine ⟨st.fs, ?_, fun p hp => hp⟩
      simp [synthLoop]
  | cons key rest ih =>
      intro st acc tr hses herr
      have hs : pathExists st (sesFile key) = true :=
        hses key (List.mem_cons_self key rest)
      simp only [sesFile] at hs
      obtain ⟨fs1, heq, hmono⟩ := ih
        { fs := (mkFileName ext st.rng, FsEntry.file ext.convOutSize) ::
            (src_path, FsEntry.file ext.ttsOutSize) :: st.fs,
          rng := st.rng + 1 }
        (some (mkFileName ext st.rng))
        (tr ++ [Effect.convert (mkFileName ext st.rng)])
        (by
          intro k hk
          have h0 := hses k (List.mem_cons_of_mem key hk)
          have h1 : pathExists { fs := st.fs, rng := st.rng + 1 }
              (sesFile k) = true := h0
          exact @pathExists_fsWrite_of
            (fsWrite { fs := st.fs, rng := st.rng + 1 } src_path
              ext.ttsOutSize) (sesFile k) (mkFileName ext st.rng)
            ext.convOutSize
            (@pathExists_fsWrite_of { fs := st.fs, rng := st.rng + 1 }
              (sesFile k) src_path ext.ttsOutSize h1))
        herr
      refine ⟨fs1, ?_, ?_⟩
      · simp only [synthLoop, hs, if_true, herr, generate_unique_filename_eq,
          fsWrite]
        rw [heq]
        cases rest with
        | nil =>
            simp [List.range_succ_eq_map, Nat.add_sub_cancel]
        | cons r rs =>
            simp [List.range_succ_eq_map, List.map_map, List.append_assoc,
              Function.comp, Nat.add_comm, Nat.add_assoc, Nat.add_left_comm,
              Nat.add_sub_cancel]
      · intro p hp
        have h1 : pathExists { fs := st.fs, rng := st.rng + 1 } p = true := hp
        exact hmono p (@pathExists_fsWrite_of
          (fsWrite { fs := st.fs, rng := st.rng + 1 } src_path ext.ttsOutSize)
          p (mkFileName ext st.rng) ext.convOutSize
          (@pathExists_fsWrite_of { fs := st.fs, rng := st.rng + 1 } p
            src_path ext.ttsOutSize h1))

theorem pathExists_mkdirsAll_of {st : St} {p : String}
    (h : pathExists st p = true) : pathExists (mkdirsAll st) p = true := by
  unfold mkdirsAll
  exact pathExists_mkdir_of _ (pathExists_mkdir_of _ (pathExists_mkdir_of _
    (pathExists_mkdir_of _ (pathExists_mkdir_of _ (pathExists_mkdir_of _
      (pathExists_mkdir_of _ h))))))

theorem mkdirsAll_rng (st : St) : (mkdirsAll st).rng = st.rng := by
  simp [mkdirsAll, mkdir_rng]

/-- Claim C5: the synthesis pipeline performs one tone-conversion output
per base speaker known to the TTS model (one `convert` effect per
speaker key, each to its own freshly drawn filename), and the value it
returns and publishes is built from the output of the last iteration
only — all earlier outputs are left behind on disk and discarded from
the result. -/
theorem claim_C5_one_output_per_speaker_last_returned (ext : Ext) (st : St)
    (language text reference_speaker speed : String)
    (hcfg : pathExists st "checkpoints_v2/converter/config.json" = true)
    (hck : pathExists st "checkpoints_v2/converter/checkpoint.pth" = true)
    (href : pathExists st reference_speaker = true)
    (hses : ∀ k ∈ ext.speakers, pathExists st (sesFile k) = true)
    (herr : ∀ op, ext.extErr op = none)
    (hne : ext.speakers ≠ [])
    (hstore : storageTruthy ext = true) :
    (generate_wav ext language text reference_speaker speed st).1 =
      (some (getenvStr ext "BUCKET_ENDPOINT_URL" ++ "/" ++ bucketName ext ++
        "/" ++ basename (mkFileName ext (st.rng + ext.speakers.length - 1))),
        none) ∧
    (generate_wav ext language text reference_speaker speed st).2.2 =
      (List.range ext.speakers.length).map
        (fun i => Effect.convert (mkFileName ext (st.rng + i))) ++
        [Effect.upload (mkFileName ext (st.rng + ext.speakers.length - 1))] := by
  have hcfg2 : pathExists (mkdirsAll st)
      ("checkpoints_v2/converter" ++ "/config.json") = true :=
    pathExists_mkdirsAll_of hcfg
  have hck2 : pathExists (mkdirsAll st)
      ("checkpoints_v2/converter" ++ "/checkpoint.pth") = true :=
    pathExists_mkdirsAll_of hck
  have href2 : pathExists (mkdirsAll st) reference_speaker = true :=
    pathExists_mkdirsAll_of href
  obtain ⟨fs1, heq, _⟩ := synthLoop_done ext ("outputs_v2" ++ "/tmp.wav")
    ext.speakers (mkdirsAll st) none []
    (fun k hk => pathExists_mkdirsAll_of (hses k hk)) herr
  have hie : ext.speakers.isEmpty = false := by
    cases hsp : ext.speakers with
    | nil => exact absurd hsp hne
    | cons a l => rfl
  have hbody : generate_wav_body ext language text reference_speaker speed st
      = Except.ok (generate_wav_publish ext (bucketName ext)
        (mkFileName ext (st.rng + ext.speakers.length - 1))
        { fs := fs1, rng := st.rng + ext.speakers.length }
        ((List.range ext.speakers.length).map
          (fun i => Effect.convert (mkFileName ext (st.rng + i))))) := by
    simp only [generate_wav_body, hcfg2, hck2, href2, herr, if_true, heq, hie,
      mkdirsAll_rng, List.nil_append, Bool.false_eq_true, if_false]
  have hpub : generate_wav_publish ext (bucketName ext)
      (mkFileName ext (st.rng + ext.speakers.length - 1))
      { fs := fs1, rng := st.rng + ext.speakers.length }
      ((List.range ext.speakers.length).map
        (fun i => Effect.convert (mkFileName ext (st.rng + i)))) =
      ((some (getenvStr ext "BUCKET_ENDPOINT_URL" ++ "/" ++ bucketName ext ++
          "/" ++ basename (mkFileName ext (st.rng + ext.speakers.length - 1))),
        none),
        { fs := fs1, rng := st.rng + ext.speakers.length },
        (List.range ext.speakers.length).map
          (fun i => Effect.convert (mkFileName ext (st.rng + i))) ++
          [Effect.upload
            (mkFileName ext (st.rng + ext.speakers.length - 1))]) := by
    simp only [generate_wav_publish, hstore, if_true, upload_to_s3, herr]
  unfold generate_wav
  rw [hbody, hpub]
  exact ⟨rfl, rfl⟩

/-- Witness for claim C5 at a concrete fully healthy run with two base
speakers: two convert effects with distinct drawn filenames, and the
upload and returned URL built from the second one. -/
theorem claim_C5_witness :
    (generate_wav extOk "EN" "hello" "resources/1.wav" "1.0" stOk).1 =
      (some (getenvStr extOk "BUCKET_ENDPOINT_URL" ++ "/" ++ bucketName extOk
        ++ "/" ++
        basename (mkFileName extOk (stOk.rng + extOk.speakers.length - 1))),
        none) ∧
    (generate_wav extOk "EN" "hello" "resources/1.wav" "1.0" stOk).2.2 =
      (List.range extOk.speakers.length).map
        (fun i => Effect.convert (mkFileName extOk (stOk.rng + i))) ++
        [Effect.upload
          (mkFileName extOk (stOk.rng + extOk.speakers.length - 1))] :=
  claim_C5_one_output_per_speaker_last_returned extOk stOk "EN" "hello"
    "resources/1.wav" "1.0" (by decide) (by decide) (by decide) (by decide)
    (fun _ => rfl) (by decide) (by decide)

/-! ### Claim C9 -/

theorem mkFileName_eq_iff (ext : Ext) (c d : Nat)
    (hlen : (ext.tsOracle c).length = (ext.tsOracle d).length) :
    mkFileName ext c = mkFileName ext d ↔
      (ext.tsOracle c = ext.tsOracle d ∧
        ext.randOracle c = ext.randOracle d) := by
  constructor
  · intro h
    have hd := congrArg String.data h
    simp only [mkFileName, String.data_append, List.append_assoc] at hd
    have h1 := List.append_cancel_left hd
    have h2 := List.append_cancel_left h1
    have hlen2 : (ext.tsOracle c).data.length =
        (ext.tsOracle d).data.length := hlen
    obtain ⟨hts, hrest⟩ := List.append_inj h2 hlen2
    have h3 := List.append_cancel_left hrest
    have hrand := List.append_cancel_right h3
    exact ⟨string_data_inj hts, string_data_inj hrand⟩
  · intro h
    unfold mkFileName
    rw [h.1, h.2]

/-- Counterexample to claim C9 as stated: the timestamp has one-second
resolution and the six random characters are an independent draw, so a
run in which two quick successive calls see the same clock second and
the same random draw — a possible execution — produces the identical
filename twice; the md5 component hashes the constant base title and
never disambiguates.  Collisions are therefore possible, merely
improbable. -/
theorem claim_C9_counterexample :
    (generate_unique_filename { extOk with randOracle := fun _ => "aaaaaa" }
      { fs := [], rng := 0 } "outputs_v2/OpenVoice" ".wav").1.1 =
      some "outputs_v2/OpenVoice_20240101_000000_aaaaaa_012345.wav" ∧
    (generate_unique_filename { extOk with randOracle := fun _ => "aaaaaa" }
      (generate_unique_filename { extOk with randOracle := fun _ => "aaaaaa" }
        { fs := [], rng := 0 } "outputs_v2/OpenVoice" ".wav").2
      "outputs_v2/OpenVoice" ".wav").1.1 =
      some "outputs_v2/OpenVoice_20240101_000000_aaaaaa_012345.wav" :=
  ⟨rfl, rfl⟩

/-- Claim C9 as amended: two successive generated output filenames
collide exactly when both the second-resolution timestamp and the
six-character random suffix of the two draws coincide (the hash
component is constant across calls); whenever either differs, the
filenames differ. -/
theorem claim_C9_collision_iff (ext : Ext) (st : St)
    (hlen : (ext.tsOracle st.rng).length =
      (ext.tsOracle (st.rng + 1)).length) :
    ((generate_unique_filename ext st "outputs_v2/OpenVoice" ".wav").1.1 =
      (generate_unique_filename ext
        (generate_unique_filename ext st "outputs_v2/OpenVoice" ".wav").2
        "outputs_v2/OpenVoice" ".wav").1.1) ↔
      (ext.tsOracle st.rng = ext.tsOracle (st.rng + 1) ∧
        ext.randOracle st.rng = ext.randOracle (st.rng + 1)) := by
  simp only [generate_unique_filename_eq, Option.some.injEq]
  exact mkFileName_eq_iff ext st.rng (st.rng + 1) hlen

/-- Witness for the amended claim C9: with equal timestamps but
different random suffixes the two filenames do not collide. -/
theorem claim_C9_witness :
    (generate_unique_filename extOk { fs := [], rng := 0 }
      "outputs_v2/OpenVoice" ".wav").1.1 ≠
    (generate_unique_filename extOk
      (generate_unique_filename extOk { fs := [], rng := 0 }
        "outputs_v2/OpenVoice" ".wav").2
      "outputs_v2/OpenVoice" ".wav").1.1 := fun h =>
  absurd ((claim_C9_collision_iff extOk { fs := [], rng := 0 }
    (by decide)).mp h).2 (by decide)

end OpenVoiceWorker
